import Mathlib

/-!
Verification of the mimikry domain-impersonation tool (src/main.rs).

The development shallowly embeds the Rust source:
* strings are `List Char` (Rust `&str` / `String`);
* the hosts file is modelled as its byte content (a `List Char`):
  `update_hosts` appends bytes in append mode exactly as `writeln!` does, and
  `cleanup_hosts_file` reads the content back through a model of
  `BufRead::lines` (split at newline bytes, one trailing carriage return
  stripped from each newline-terminated line) before filtering and, when
  needed, rewriting;
* fallible system effects (file creation, spawning external utilities) are
  driven by an `Env` record of outcome flags, and the effectful functions
  return a result, the updated system state and the trace of attempted steps.
-/

namespace Mimikry

/-- The sentinel `MIMIKRY_TAG` appended to every hosts line this tool writes
(`const MIMIKRY_TAG: &str = "#mimikry-entry"`). -/
def MIMIKRY_TAG : List Char := "#mimikry-entry".data

/-- Right trim, as in Rust `str::trim` (drop trailing whitespace). -/
def trimRight (l : List Char) : List Char :=
  (l.reverse.dropWhile Char.isWhitespace).reverse

/-- Rust `str::trim`: drop leading and trailing whitespace. -/
def trim (l : List Char) : List Char :=
  (trimRight l).dropWhile Char.isWhitespace

/-- The predicate `cleanup_hosts` uses, `line.trim().ends_with(MIMIKRY_TAG)`,
to decide which lines to drop. -/
def isTagged (line : List Char) : Bool :=
  MIMIKRY_TAG.isSuffixOf (trim line)

/-- The line `update_hosts` writes for a domain:
`writeln!(file, "127.0.0.1 {} {}", domain, MIMIKRY_TAG)`. -/
def hostsEntry (domain : List Char) : List Char :=
  "127.0.0.1 ".data ++ domain ++ " ".data ++ MIMIKRY_TAG

/-- The bytes `writeln!` emits for a sequence of lines: each line followed by
a newline byte. Also models the rewrite loop of `cleanup_hosts`, which
re-creates the file and `writeln!`s every kept line. -/
def writeLines : List (List Char) → List Char
  | [] => []
  | l :: ls => l ++ '\n' :: writeLines ls

/-- Function `update_hosts`: the hosts file is opened in append mode and one
`writeln!(file, "127.0.0.1 {} {}", domain, MIMIKRY_TAG)` is issued per
domain, so the new bytes are appended directly after the existing content —
if the existing content does not end with a newline, the first entry merges
with the file's final line. -/
def update_hosts (content : List Char) (domains : List (List Char)) :
    List Char :=
  content ++ writeLines (domains.map hostsEntry)

/-- Split a byte sequence at newline bytes (the raw parts, separators
removed); an auxiliary for the model of `BufRead::lines`. -/
def splitNL : List Char → List (List Char)
  | [] => [[]]
  | c :: cs =>
    let r := splitNL cs
    if c = '\n' then [] :: r
    else
      match r with
      | [] => [[c]]
      | p :: ps => (c :: p) :: ps

/-- Strip one trailing carriage return, as `BufRead::lines` does on each
newline-terminated line (CRLF handling). -/
def chomp (l : List Char) : List Char :=
  if l.getLast? = some '\r' then l.dropLast else l

/-- Model of `BufRead::lines()`: split the content at newline bytes; every
newline-terminated part has one trailing carriage return stripped; a final
fragment not terminated by a newline is yielded as a line as-is, and a
trailing newline does not produce an extra empty line. -/
def linesOf (content : List Char) : List (List Char) :=
  ((splitNL content).dropLast).map chomp ++
    (match (splitNL content).getLast? with
      | some [] => []
      | some l => [l]
      | none => [])

/-- The line loop of `cleanup_hosts`: keep untagged lines in order, record in
the second component whether any tagged line was skipped (`changed`). -/
def cleanupScan : List (List Char) → List (List Char) × Bool
  | [] => ([], false)
  | l :: ls =>
    let r := cleanupScan ls
    if isTagged l then (r.1, true) else (l :: r.1, r.2)

/-- Function `cleanup_hosts`: read all lines, drop the tagged ones, and rewrite the file
only when at least one line was dropped (`if changed { ... }`). Returns the
resulting file content and whether a rewrite happened. -/
def cleanup_hosts (file : List (List Char)) : List (List Char) × Bool :=
  let r := cleanupScan file
  (if r.2 then r.1 else file, r.2)

/-- The whole of `cleanup_hosts` on the file's byte content: read the lines
(`linesOf`), run the filter loop (`cleanupScan`), and only if a tagged line
was dropped re-create the file and `writeln!` every kept line
(`writeLines`). Returns the resulting byte content and whether a rewrite
happened. -/
def cleanup_hosts_file (content : List Char) : List Char × Bool :=
  let r := cleanupScan (linesOf content)
  (if r.2 then writeLines r.1 else content, r.2)

/-- The lines of a hosts file that do not carry the sentinel tag. -/
def untaggedLines (file : List (List Char)) : List (List Char) :=
  file.filter (fun l => !(isTagged l))

/-- One `add` (update_hosts) followed by one `removeAll` (cleanup_hosts), on
the file's byte content. -/
def addRemoveCycleFile (content : List Char) (domains : List (List Char)) :
    List Char :=
  (cleanup_hosts_file (update_hosts content domains)).1

-- Basic lemmas about the scan.

theorem cleanupScan_eq (file : List (List Char)) :
    cleanupScan file = (file.filter (fun l => !(isTagged l)), file.any isTagged) := by
  induction file with
  | nil => rfl
  | cons l ls ih =>
    simp only [cleanupScan, ih, List.filter_cons, List.any_cons]
    cases h : isTagged l <;> simp [h]

theorem dropWhile_cons_of_neg {p : Char → Bool} {a : Char} (l : List Char)
    (h : p a = false) : (a :: l).dropWhile p = a :: l := by
  simp [List.dropWhile_cons, h]

theorem trimRight_append_tag (pre : List Char) :
    trimRight (pre ++ MIMIKRY_TAG) = pre ++ MIMIKRY_TAG := by
  have hrev : MIMIKRY_TAG.reverse = 'y' :: "rtne-yrkimim#".data := by decide
  have hy : Char.isWhitespace 'y' = false := by decide
  unfold trimRight
  rw [List.reverse_append, hrev, List.cons_append,
    dropWhile_cons_of_neg _ hy, ← List.cons_append, ← hrev,
    ← List.reverse_append, List.reverse_reverse]

theorem tag_suffix_dropWhile (pre : List Char) :
    MIMIKRY_TAG.isSuffixOf ((pre ++ MIMIKRY_TAG).dropWhile Char.isWhitespace) = true := by
  induction pre with
  | nil => decide
  | cons a t ih =>
    cases h : Char.isWhitespace a with
    | true =>
      rw [List.cons_append, List.dropWhile_cons]
      simpa [h] using ih
    | false =>
      rw [List.cons_append, dropWhile_cons_of_neg _ h]
      rw [List.isSuffixOf_iff_suffix]
      exact (List.suffix_append (a :: t) MIMIKRY_TAG)

/-- Every line written by `update_hosts` is recognised by the cleanup
predicate. -/
theorem isTagged_hostsEntry (domain : List Char) :
    isTagged (hostsEntry domain) = true := by
  unfold isTagged hostsEntry trim
  rw [show "127.0.0.1 ".data ++ domain ++ " ".data ++ MIMIKRY_TAG
      = ("127.0.0.1 ".data ++ domain ++ " ".data) ++ MIMIKRY_TAG by simp,
    trimRight_append_tag]
  exact tag_suffix_dropWhile _

theorem untagged_of_no_tagged (file : List (List Char))
    (h : file.any isTagged = false) : untaggedLines file = file := by
  unfold untaggedLines
  induction file with
  | nil => rfl
  | cons l ls ih =>
    simp only [List.any_cons, Bool.or_eq_false_iff] at h
    simp [List.filter_cons, h.1, ih h.2]

theorem untaggedLines_idem (file : List (List Char)) :
    untaggedLines (untaggedLines file) = untaggedLines file := by
  unfold untaggedLines
  rw [List.filter_filter]
  simp

theorem splitNL_ne_nil (l : List Char) : splitNL l ≠ [] := by
  cases l with
  | nil => simp [splitNL]
  | cons c cs =>
    by_cases hc : c = '\n'
    · simp [splitNL, hc]
    · cases hs : splitNL cs <;> simp [splitNL, hc, hs]

theorem splitNL_line (l rest : List Char) (h : '\n' ∉ l) :
    splitNL (l ++ '\n' :: rest) = l :: splitNL rest := by
  induction l with
  | nil => simp [splitNL]
  | cons c l ih =>
    have hc : ¬(c = '\n') := fun hh => h (hh ▸ List.mem_cons_self c l)
    have h' : '\n' ∉ l := fun hm => h (List.mem_cons_of_mem c hm)
    simp only [List.cons_append, splitNL, if_neg hc]
    rw [show l.append ('\n' :: rest) = l ++ '\n' :: rest from rfl, ih h']

theorem writeLines_append (a b : List (List Char)) :
    writeLines (a ++ b) = writeLines a ++ writeLines b := by
  induction a with
  | nil => rfl
  | cons l a ih => simp [writeLines, ih]

/-- Reading back what `writeln!` wrote recovers the lines exactly, as long as
no line contains a newline or ends with a carriage return (the two cases
where `lines()` would not return the written bytes unchanged). -/
theorem linesOf_writeLines (ls : List (List Char))
    (h : ∀ l ∈ ls, '\n' ∉ l ∧ l.getLast? ≠ some '\r') :
    linesOf (writeLines ls) = ls := by
  induction ls with
  | nil => rfl
  | cons l ls ih =>
    obtain ⟨hnl, hcr⟩ := h l (List.mem_cons_self l ls)
    have h' : ∀ x ∈ ls, '\n' ∉ x ∧ x.getLast? ≠ some '\r' :=
      fun x hx => h x (List.mem_cons_of_mem l hx)
    have hsplit : splitNL (writeLines (l :: ls)) = l :: splitNL (writeLines ls) := by
      rw [show writeLines (l :: ls) = l ++ '\n' :: writeLines ls from rfl,
        splitNL_line _ _ hnl]
    rcases hps : splitNL (writeLines ls) with _ | ⟨p, pt⟩
    · exact absurd hps (splitNL_ne_nil _)
    · have htail := ih h'
      unfold linesOf at htail ⊢
      rw [hsplit, hps] at *
      simp only [List.dropLast, List.map_cons, List.cons_append, List.getLast?]
      rw [show chomp l = l by simp [chomp, hcr]]
      cases pt with
      | nil => simpa using htail
      | cons q qt => simpa using htail

theorem hostsEntry_getLast (d : List Char) :
    (hostsEntry d).getLast? = some 'y' := by
  unfold hostsEntry
  rw [show "127.0.0.1 ".data ++ d ++ " ".data ++ MIMIKRY_TAG
      = ("127.0.0.1 ".data ++ d ++ " ".data) ++ MIMIKRY_TAG by simp]
  generalize "127.0.0.1 ".data ++ d ++ " ".data = pre
  induction pre with
  | nil => decide
  | cons c p ih =>
    rcases hpt : p ++ MIMIKRY_TAG with _ | ⟨a, as⟩
    · exact absurd hpt (by simp [MIMIKRY_TAG])
    · rw [List.cons_append, hpt, List.getLast?_cons_cons, ← hpt, ih]

theorem hostsEntry_no_newline (d : List Char) (h : '\n' ∉ d) :
    '\n' ∉ hostsEntry d := by
  unfold hostsEntry
  intro hm
  rcases List.mem_append.1 hm with hm | hm
  · rcases List.mem_append.1 hm with hm | hm
    · rcases List.mem_append.1 hm with hm | hm
      · exact absurd hm (by decide)
      · exact h hm
    · exact absurd hm (by decide)
  · exact absurd hm (by decide)

/-- One add/removeAll cycle on a properly newline-terminated file (the byte
content of a list of lines) leaves exactly the untagged lines, rewritten in
their original order. -/
theorem addRemoveCycleFile_writeLines (ls D : List (List Char))
    (hls : ∀ l ∈ ls, '\n' ∉ l ∧ l.getLast? ≠ some '\r')
    (hD : ∀ d ∈ D, '\n' ∉ d) :
    addRemoveCycleFile (writeLines ls) D = writeLines (untaggedLines ls) := by
  have hall : ∀ l ∈ ls ++ D.map hostsEntry, '\n' ∉ l ∧ l.getLast? ≠ some '\r' := by
    intro l hl
    rcases List.mem_append.1 hl with hl | hl
    · exact hls l hl
    · rcases List.mem_map.1 hl with ⟨d, hd, rfl⟩
      refine ⟨hostsEntry_no_newline d (hD d hd), ?_⟩
      rw [hostsEntry_getLast]
      simp
  have hfe : (D.map hostsEntry).filter (fun l => !(isTagged l)) = [] := by
    apply List.filter_eq_nil_iff.2
    intro l hl
    rcases List.mem_map.1 hl with ⟨d, _, rfl⟩
    simp [isTagged_hostsEntry]
  unfold addRemoveCycleFile cleanup_hosts_file update_hosts
  rw [← writeLines_append, linesOf_writeLines _ hall, cleanupScan_eq]
  simp only [List.filter_append, List.any_append, hfe, List.append_nil]
  cases hch : (ls.any isTagged || (D.map hostsEntry).any isTagged) with
  | true =>
    simp only [hch, if_true]
    rfl
  | false =>
    simp only [Bool.false_eq_true, if_false]
    simp only [Bool.or_eq_false_iff] at hch
    have hmap : D.map hostsEntry = [] := by
      by_contra hne
      rcases List.exists_mem_of_ne_nil _ hne with ⟨x, hx⟩
      rcases List.mem_map.1 hx with ⟨d, _, rfl⟩
      have : (D.map hostsEntry).any isTagged = true :=
        List.any_eq_true.2 ⟨hostsEntry d, hx, isTagged_hostsEntry d⟩
      rw [this] at hch
      exact absurd hch.2 (by simp)
    rw [hmap, List.append_nil, untagged_of_no_tagged ls hch.1]

/-- C1, counterexample: on the mapping file whose entire content is the three
bytes of "foo" — one untagged line not terminated by a newline — a single
add of domain "d" appends its entry in append mode so the bytes merge into
the one line "foo127.0.0.1 d #mimikry-entry"; that merged line ends with the
sentinel tag, so removeAll drops it and rewrites an empty file: the untagged
line "foo" is destroyed, refuting the round-trip claim for this initial
content. -/
theorem C1_untagged_roundtrip_cex :
    isTagged "foo".data = false
    ∧ untaggedLines (linesOf "foo".data) = ["foo".data]
    ∧ addRemoveCycleFile "foo".data ["d".data] = []
    ∧ untaggedLines (linesOf (addRemoveCycleFile "foo".data ["d".data])) = [] := by
  decide

/-- C1, amended: across any number of add/removeAll cycles, the untagged
lines of the mapping file are preserved byte-for-byte in their original
relative order, provided the initial content is a sequence of
newline-terminated lines — `writeLines ls`, so in particular the final line
ends with a newline — none of which contains a newline or ends with a
carriage return, and no domain contains a newline. Without the trailing
newline the first appended entry merges with the final line and removeAll
destroys it (see the counterexample). -/
theorem C1_untagged_roundtrip_amended (ls : List (List Char))
    (cycles : List (List (List Char)))
    (hls : ∀ l ∈ ls, '\n' ∉ l ∧ l.getLast? ≠ some '\r')
    (hd : ∀ D ∈ cycles, ∀ d ∈ D, '\n' ∉ d) :
    untaggedLines (linesOf (cycles.foldl addRemoveCycleFile (writeLines ls)))
      = untaggedLines ls := by
  induction cycles generalizing ls with
  | nil =>
    rw [List.foldl_nil, linesOf_writeLines ls hls]
  | cons D DS ih =>
    have hstep := addRemoveCycleFile_writeLines ls D hls (hd D (List.mem_cons_self D DS))
    have hls2 : ∀ l ∈ untaggedLines ls, '\n' ∉ l ∧ l.getLast? ≠ some '\r' :=
      fun l hl => hls l (List.mem_of_mem_filter hl)
    have hd2 : ∀ E ∈ DS, ∀ d ∈ E, '\n' ∉ d :=
      fun E hE => hd E (List.mem_cons_of_mem D hE)
    rw [List.foldl_cons, hstep, ih (untaggedLines ls) hls2 hd2, untaggedLines_idem]

/-- Witness for the amended C1 at a concrete newline-terminated file and two
add/removeAll cycles. -/
theorem C1_untagged_roundtrip_amended_witness :
    ((∀ l ∈ ["localhost line".data, "# comment".data],
        '\n' ∉ l ∧ l.getLast? ≠ some '\r')
      ∧ (∀ D ∈ [["a".data], ["b".data, "c".data]], ∀ d ∈ D, '\n' ∉ d))
    ∧ untaggedLines (linesOf ([["a".data], ["b".data, "c".data]].foldl
          addRemoveCycleFile
          (writeLines ["localhost line".data, "# comment".data])))
        = untaggedLines ["localhost line".data, "# comment".data] :=
  ⟨⟨by decide, by decide⟩,
    C1_untagged_roundtrip_amended ["localhost line".data, "# comment".data]
      [["a".data], ["b".data, "c".data]] (by decide) (by decide)⟩

/-- C5: `removeAll` on a file with zero tagged lines performs no write: the
content is returned untouched and the rewrite flag is false. -/
theorem C5_no_write_when_untagged (file : List (List Char))
    (h : file.any isTagged = false) :
    cleanup_hosts file = (file, false) := by
  unfold cleanup_hosts
  rw [cleanupScan_eq]
  simp [h]

/-- Witness for C5 on a concrete untagged file. -/
theorem C5_no_write_when_untagged_witness :
    (["127.0.0.1 localhost".data, "# hello".data].any isTagged = false)
    ∧ cleanup_hosts ["127.0.0.1 localhost".data, "# hello".data]
        = (["127.0.0.1 localhost".data, "# hello".data], false) :=
  ⟨by decide, C5_no_write_when_untagged _ (by decide)⟩

/-!
Certificate model. `generate_certs` uses the external `rcgen` library; the
following definitions model rcgen's documented interface (an external
dependency, not repository code): `CertificateParams::new(names)` populates
`subject_alt_names` from the given names, `Certificate::from_params` wraps the
parameters, `serialize_pem` self-signs, and `serialize_pem_with_signer(ca)`
signs with the given authority. Chain validation succeeds exactly when the
leaf was serialized with the authority as signer. Key material is opaque
cryptographic data no claim inspects, so the key-pair components of
`generate_certs`'s result tuple are omitted.
-/

/-- rcgen `SanType`; the program only ever constructs `DnsName` entries. -/
inductive SanType where
  | dnsName (name : List Char)
  deriving DecidableEq, Repr

/-- rcgen `BasicConstraints`. -/
inductive BasicConstraints where
  | unconstrained
  | constrained (pathLen : Nat)
  deriving DecidableEq, Repr

/-- rcgen `IsCa`. -/
inductive IsCa where
  | noCa
  | ca (bc : BasicConstraints)
  deriving DecidableEq, Repr

/-- rcgen `DnType`; only the variant the program uses. -/
inductive DnType where
  | organizationName
  deriving DecidableEq, Repr

/-- rcgen `CertificateParams`, restricted to the fields the program touches. -/
structure CertificateParams where
  subject_alt_names : List SanType
  distinguished_name : List (DnType × List Char)
  is_ca : IsCa
  deriving DecidableEq, Repr

/-- rcgen `CertificateParams::new`: alternate names are populated from the
argument, other fields keep rcgen defaults (no CA flag, empty DN). -/
def CertificateParams.new (names : List (List Char)) : CertificateParams :=
  { subject_alt_names := names.map SanType.dnsName
    distinguished_name := []
    is_ca := IsCa.noCa }

/-- rcgen `Certificate` (parameters plus an opaque key pair). -/
structure Certificate where
  params : CertificateParams
  deriving DecidableEq, Repr

/-- rcgen `Certificate::from_params`. -/
def Certificate.from_params (p : CertificateParams) : Certificate :=
  { params := p }

/-- A serialized (PEM) certificate: its own parameters and its signer's. -/
structure PemCertificate where
  params : CertificateParams
  signerParams : CertificateParams
  deriving DecidableEq, Repr

/-- rcgen `serialize_pem`: self-signed. -/
def Certificate.serialize_pem (c : Certificate) : PemCertificate :=
  { params := c.params, signerParams := c.params }

/-- rcgen `serialize_pem_with_signer`. -/
def Certificate.serialize_pem_with_signer (c : Certificate) (signer : Certificate) :
    PemCertificate :=
  { params := c.params, signerParams := signer.params }

/-- Chain validation of a leaf against an authority certificate: succeeds
exactly when the leaf was signed by that authority. -/
def validate_chain (leaf authority : PemCertificate) : Bool :=
  decide (leaf.signerParams = authority.params)

/-- Function `generate_certs` (src/main.rs lines 144-167): build the self-signed CA
with `IsCa::Ca(BasicConstraints::Constrained(0))` and the organization name
pushed onto the DN, then the leaf whose `subject_alt_names` are overwritten
with one `DnsName` per input domain, signed by the CA. Returns
(ca_cert_pem, leaf_cert_pem); the key-pair PEMs are omitted (opaque). -/
def generate_certs (domains : List (List Char)) : PemCertificate × PemCertificate :=
  let ca_params0 := CertificateParams.new ["Mimikry Root CA".data]
  let ca_params : CertificateParams :=
    { ca_params0 with
      distinguished_name :=
        ca_params0.distinguished_name ++ [(DnType.organizationName, "Mimikry Internal".data)]
      is_ca := IsCa.ca (BasicConstraints.constrained 0) }
  let ca_cert := Certificate.from_params ca_params
  let ca_cert_pem := ca_cert.serialize_pem
  let leaf_params0 := CertificateParams.new domains
  let sans := domains.map SanType.dnsName
  let leaf_params : CertificateParams := { leaf_params0 with subject_alt_names := sans }
  let leaf_cert := Certificate.from_params leaf_params
  let leaf_cert_pem := leaf_cert.serialize_pem_with_signer ca_cert
  (ca_cert_pem, leaf_cert_pem)

/-- C4: for every non-empty domain list, the leaf certificate's alternate-name
list is exactly one DNS entry per input domain, order-preserving with
duplicates kept, and chain validation of the leaf against the authority
succeeds. -/
theorem C4_leaf_sans_and_chain (domains : List (List Char)) (h : domains ≠ []) :
    (generate_certs domains).2.params.subject_alt_names = domains.map SanType.dnsName
    ∧ validate_chain (generate_certs domains).2 (generate_certs domains).1 = true := by
  refine ⟨rfl, ?_⟩
  simp [generate_certs, validate_chain, Certificate.serialize_pem,
    Certificate.serialize_pem_with_signer, Certificate.from_params]

/-- Witness for C4 at a concrete two-domain input (with a duplicate). -/
theorem C4_leaf_sans_and_chain_witness :
    (["example.test".data, "example.test".data] ≠ ([] : List (List Char)))
    ∧ ((generate_certs ["example.test".data, "example.test".data]).2.params.subject_alt_names
        = ["example.test".data, "example.test".data].map SanType.dnsName
      ∧ validate_chain (generate_certs ["example.test".data, "example.test".data]).2
          (generate_certs ["example.test".data, "example.test".data]).1 = true) :=
  ⟨by decide, C4_leaf_sans_and_chain _ (by decide)⟩

/-- C8: the generated authority certificate asserts CA capability with a
basic-constraints path length of 0. -/
theorem C8_ca_constrained (domains : List (List Char)) :
    (generate_certs domains).1.params.is_ca
      = IsCa.ca (BasicConstraints.constrained 0) := rfl

/-!
Effectful system model. The fallible side effects of `install_trust`,
`remove_trust`, `update_hosts`, `cleanup_hosts`, `cleanup_system` and `main`
are driven by an `Env` record saying which primitive operations succeed in the
surrounding system; each function returns its `Result`, the updated system
state, and the ordered trace of steps it attempted. Faithfulness notes:
* `Command::output()` returns `Err` only when the utility cannot be spawned;
  the utility's own exit status is a separate flag, consulted exactly where
  the source consults `status.success()`;
* once the hosts file is opened, the individual `writeln!` calls are modelled
  as succeeding (no claim concerns partial line writes);
* `remove_trust` never reads the exit status of `update-ca-certificates
  --fresh`, and ignores the `certutil -D` outcome entirely, exactly as the
  source does.
-/

/-- One attempted side-effecting step, in program order. -/
inductive Step where
  | callCleanupHosts
  | readHostsFile
  | writeHostsFile
  | callRemoveTrust
  | removeSysCert
  | runRefreshFresh
  | runCertutilDelete
  | callInstallTrust
  | writeSysCert
  | runRefresh
  | writeTempCert
  | runCertutilImport
  | removeTempFile
  | callUpdateHosts
  | appendHostsEntries
  | callGenerateCerts
  | startServing
  deriving DecidableEq, Repr

/-- Persistent system state the program manipulates; `hosts` is the byte
content of the resolution mapping file. -/
structure SysState where
  sysCertExists : Bool
  tempCertExists : Bool
  hosts : List Char
  deriving DecidableEq, Repr

/-- Outcomes of the primitive operations in the surrounding system, plus the
process environment (`SUDO_USER`, which `/home/<user>` directories exist,
whether the current uid is 0). The flags `certutilImportSpawnOk`,
`certutilImportExitOk`, `certutilDeleteSpawnOk` and `refreshFreshExitOk` are
never consulted by the functions below because the source discards those
outcomes; keeping them in the environment lets the theorems quantify over
them, expressing that the behaviour is the same regardless of those
outcomes. -/
structure Env where
  sudoUser : Option String
  homeDirs : List String
  uidIsRoot : Bool
  genCertsOk : Bool
  sysCertWriteOk : Bool
  refreshSpawnOk : Bool
  refreshExitOk : Bool
  tempWriteOk : Bool
  certutilImportSpawnOk : Bool
  certutilImportExitOk : Bool
  certutilDeleteSpawnOk : Bool
  sysCertRemoveOk : Bool
  refreshFreshSpawnOk : Bool
  refreshFreshExitOk : Bool
  hostsOpenReadOk : Bool
  hostsOpenAppendOk : Bool
  hostsWriteOk : Bool
  deriving DecidableEq, Repr

deriving instance DecidableEq for Except

/-- Result, new state and attempted-step trace of one effectful call. -/
structure Outcome where
  res : Except String Unit
  state : SysState
  trace : List Step
  deriving DecidableEq, Repr

/-- Function `get_real_user_home`: `SUDO_USER`, if set, and `/home/<user>` exists. -/
def get_real_user_home (env : Env) : Option String :=
  match env.sudoUser with
  | none => none
  | some u => if env.homeDirs.contains u then some ("/home/" ++ u) else none

/-- Function `install_trust` (src/main.rs lines 171-219): write the CA to the system
store (`?`), run `update-ca-certificates` and treat a non-zero exit as fatal;
then, if a real user home is found, write the CA to a temp file (`?`), run
`certutil -A` ignoring its outcome apart from a warning, and always remove the
temp file. -/
def install_trust (env : Env) (s : SysState) : Outcome :=
  if env.sysCertWriteOk then
    let s1 : SysState := { s with sysCertExists := true }
    if env.refreshSpawnOk then
      if env.refreshExitOk then
        if (get_real_user_home env).isSome then
          if env.tempWriteOk then
            let s2 : SysState := { s1 with tempCertExists := true }
            let s3 : SysState := { s2 with tempCertExists := false }
            { res := Except.ok ()
              state := s3
              trace := [Step.callInstallTrust, Step.writeSysCert, Step.runRefresh,
                Step.writeTempCert, Step.runCertutilImport, Step.removeTempFile] }
          else
            { res := Except.error "write temp cert"
              state := s1
              trace := [Step.callInstallTrust, Step.writeSysCert, Step.runRefresh,
                Step.writeTempCert] }
        else
          { res := Except.ok ()
            state := s1
            trace := [Step.callInstallTrust, Step.writeSysCert, Step.runRefresh] }
      else
        { res := Except.error "Failed to run update-ca-certificates"
          state := s1
          trace := [Step.callInstallTrust, Step.writeSysCert, Step.runRefresh] }
    else
      { res := Except.error "spawn update-ca-certificates"
        state := s1
        trace := [Step.callInstallTrust, Step.writeSysCert, Step.runRefresh] }
  else
    { res := Except.error "write system cert"
      state := s
      trace := [Step.callInstallTrust, Step.writeSysCert] }

/-- Tail of `remove_trust` after the optional system-cert deletion: run
`update-ca-certificates --fresh` (`output()?`: only spawn failure is an
error, the exit status is never read), then, if a real user home is found,
run `certutil -D` with its outcome ignored (`.ok()`). -/
def remove_trust_tail (env : Env) (s : SysState) (t : List Step) : Outcome :=
  if env.refreshFreshSpawnOk then
    if (get_real_user_home env).isSome then
      { res := Except.ok ()
        state := s
        trace := t ++ [Step.runRefreshFresh, Step.runCertutilDelete] }
    else
      { res := Except.ok (), state := s, trace := t ++ [Step.runRefreshFresh] }
  else
    { res := Except.error "spawn update-ca-certificates --fresh"
      state := s
      trace := t ++ [Step.runRefreshFresh] }

/-- Function `remove_trust` (src/main.rs lines 221-248): delete the system trust-anchor
file if it exists (`?`), then the tail above. -/
def remove_trust (env : Env) (s : SysState) : Outcome :=
  if s.sysCertExists then
    if env.sysCertRemoveOk then
      remove_trust_tail env { s with sysCertExists := false }
        [Step.callRemoveTrust, Step.removeSysCert]
    else
      { res := Except.error "remove system cert"
        state := s
        trace := [Step.callRemoveTrust, Step.removeSysCert] }
  else
    remove_trust_tail env s [Step.callRemoveTrust]

/-- Effectful `cleanup_hosts`: open/read may fail (`?`); the pure byte-level
function decides whether a rewrite happens, and only then can the rewrite
fail. -/
def cleanup_hosts_eff (env : Env) (s : SysState) : Outcome :=
  if env.hostsOpenReadOk then
    let r := cleanup_hosts_file s.hosts
    if r.2 then
      if env.hostsWriteOk then
        { res := Except.ok ()
          state := { s with hosts := r.1 }
          trace := [Step.callCleanupHosts, Step.readHostsFile, Step.writeHostsFile] }
      else
        { res := Except.error "rewrite hosts"
          state := s
          trace := [Step.callCleanupHosts, Step.readHostsFile, Step.writeHostsFile] }
    else
      { res := Except.ok ()
        state := s
        trace := [Step.callCleanupHosts, Step.readHostsFile] }
  else
    { res := Except.error "open hosts"
      state := s
      trace := [Step.callCleanupHosts, Step.readHostsFile] }

/-- Effectful `update_hosts`: fails iff the hosts file cannot be opened for
append; otherwise appends one tagged line per domain. -/
def update_hosts_eff (env : Env) (s : SysState) (domains : List (List Char)) : Outcome :=
  if env.hostsOpenAppendOk then
    { res := Except.ok ()
      state := { s with hosts := update_hosts s.hosts domains }
      trace := [Step.callUpdateHosts, Step.appendHostsEntries] }
  else
    { res := Except.error "open hosts append"
      state := s
      trace := [Step.callUpdateHosts] }

/-- Function `cleanup_system` (src/main.rs lines 295-299): `cleanup_hosts()?` then
`remove_trust()?` — the `?` after `cleanup_hosts` returns early, so
`remove_trust` runs only when `cleanup_hosts` succeeded. -/
def cleanup_system (env : Env) (s : SysState) : Outcome :=
  let o1 := cleanup_hosts_eff env s
  match o1.res with
  | Except.error e => { res := Except.error e, state := o1.state, trace := o1.trace }
  | Except.ok _ =>
    let o2 := remove_trust env o1.state
    { res := o2.res, state := o2.state, trace := o1.trace ++ o2.trace }

/-- Function `main` (src/main.rs lines 29-83), up to and including teardown: root
check, defensive `cleanup_system().ok()` (errors ignored), `generate_certs?`,
`install_trust?`, `update_hosts?` — each `?` exits immediately with the error
and no teardown — then serving, then `cleanup_system()?`. -/
def main_run (env : Env) (s : SysState) (domains : List (List Char)) : Outcome :=
  if env.uidIsRoot then
    let o1 := cleanup_system env s
    if env.genCertsOk then
      let o2 := install_trust env o1.state
      match o2.res with
      | Except.error e =>
        { res := Except.error e
          state := o2.state
          trace := o1.trace ++ [Step.callGenerateCerts] ++ o2.trace }
      | Except.ok _ =>
        let o3 := update_hosts_eff env o2.state domains
        match o3.res with
        | Except.error e =>
          { res := Except.error e
            state := o3.state
            trace := o1.trace ++ [Step.callGenerateCerts] ++ o2.trace ++ o3.trace }
        | Except.ok _ =>
          let o4 := cleanup_system env o3.state
          { res := o4.res
            state := o4.state
            trace := o1.trace ++ [Step.callGenerateCerts] ++ o2.trace ++ o3.trace
              ++ [Step.startServing] ++ o4.trace }
    else
      { res := Except.error "generate certs"
        state := o1.state
        trace := o1.trace ++ [Step.callGenerateCerts] }
  else
    { res := Except.error "Root privileges required. Please run with sudo."
      state := s
      trace := [] }

-- Trace-shape lemmas used by the orchestration theorems.

theorem cleanup_hosts_eff_trace (env : Env) (s : SysState) :
    (cleanup_hosts_eff env s).trace = [Step.callCleanupHosts, Step.readHostsFile]
    ∨ (cleanup_hosts_eff env s).trace
        = [Step.callCleanupHosts, Step.readHostsFile, Step.writeHostsFile] := by
  unfold cleanup_hosts_eff
  cases h1 : env.hostsOpenReadOk <;> cases h2 : (cleanup_hosts_file s.hosts).2 <;>
    cases h3 : env.hostsWriteOk <;> simp [h1, h2, h3]

theorem remove_trust_trace_sub (env : Env) (s : SysState) :
    ∀ x ∈ (remove_trust env s).trace,
      x = Step.callRemoveTrust ∨ x = Step.removeSysCert
      ∨ x = Step.runRefreshFresh ∨ x = Step.runCertutilDelete := by
  unfold remove_trust remove_trust_tail
  split_ifs <;> intro x hx <;> simp_all <;> tauto

theorem remove_trust_call_mem (env : Env) (s : SysState) :
    Step.callRemoveTrust ∈ (remove_trust env s).trace := by
  unfold remove_trust remove_trust_tail
  split_ifs <;> simp

theorem cleanup_system_trace_sub (env : Env) (s : SysState) :
    ∀ x ∈ (cleanup_system env s).trace,
      x = Step.callCleanupHosts ∨ x = Step.readHostsFile ∨ x = Step.writeHostsFile
      ∨ x = Step.callRemoveTrust ∨ x = Step.removeSysCert
      ∨ x = Step.runRefreshFresh ∨ x = Step.runCertutilDelete := by
  intro x hx
  rcases hres : (cleanup_hosts_eff env s).res with e | u <;>
    simp only [cleanup_system, hres] at hx
  · rcases cleanup_hosts_eff_trace env s with ht | ht <;> rw [ht] at hx <;>
      simp at hx <;> tauto
  · simp only [List.mem_append] at hx
    rcases hx with hx | hx
    · rcases cleanup_hosts_eff_trace env s with ht | ht <;> rw [ht] at hx <;>
        simp at hx <;> tauto
    · have := remove_trust_trace_sub env (cleanup_hosts_eff env s).state x hx
      tauto

/-- C2 counterexample: with a hosts file that cannot be opened for reading,
the final teardown invokes `cleanup_hosts` and then never attempts
`remove_trust` (the `?` in `cleanup_system` returns early), and the teardown
error becomes `main`'s result. The environment is healthy except that
`/etc/hosts` cannot be opened. -/
def envNoHostsRead : Env :=
  { sudoUser := none, homeDirs := [], uidIsRoot := true, genCertsOk := true
    sysCertWriteOk := true, refreshSpawnOk := true, refreshExitOk := true
    tempWriteOk := true, certutilImportSpawnOk := true, certutilImportExitOk := true
    certutilDeleteSpawnOk := true, sysCertRemoveOk := true
    refreshFreshSpawnOk := true, refreshFreshExitOk := true
    hostsOpenReadOk := false, hostsOpenAppendOk := true, hostsWriteOk := true }

/-- A clean initial system state. -/
def state0 : SysState :=
  { sysCertExists := false, tempCertExists := false, hosts := [] }

/-- C2, counterexample: during the run with `envNoHostsRead`, teardown's first
step (`cleanup_hosts`) fails, `remove_trust` is never attempted anywhere in
the run, and the teardown error changes the outcome (`main` returns it). -/
theorem C2_teardown_claim_cex :
    Step.callRemoveTrust ∉ (main_run envNoHostsRead state0 []).trace
    ∧ (main_run envNoHostsRead state0 []).res = Except.error "open hosts" := by
  decide

/-- C2, amended: teardown (`cleanup_system`) invokes the resolution-override
removal first, and attempts the trust-anchor removal if and only if the
override removal succeeded; an error in the first step skips the second and
is propagated to the caller. -/
theorem C2_teardown_amended (env : Env) (s : SysState) :
    ((cleanup_system env s).trace).head? = some Step.callCleanupHosts
    ∧ (Step.callRemoveTrust ∈ (cleanup_system env s).trace
        ↔ (cleanup_hosts_eff env s).res = Except.ok ()) := by
  rcases hres : (cleanup_hosts_eff env s).res with e | u <;>
    simp only [cleanup_system, hres]
  · constructor
    · rcases cleanup_hosts_eff_trace env s with ht | ht <;> rw [ht] <;> rfl
    · constructor
      · intro hmem
        rcases cleanup_hosts_eff_trace env s with ht | ht <;> rw [ht] at hmem <;>
          exact absurd hmem (by decide)
      · intro hok
        exact Except.noConfusion hok
  · cases u
    constructor
    · rcases cleanup_hosts_eff_trace env s with ht | ht <;> rw [ht] <;> rfl
    · constructor
      · intro _
        trivial
      · intro _
        exact List.mem_append_right _ (remove_trust_call_mem env _)

/-- C3 counterexample: startup fails in `install_trust` (the trust-store
refresh utility exits non-zero) after the trust-anchor file was written;
`main` returns the error immediately — the serving state is never reached, the
only `remove_trust` invocation of the whole run is the defensive cleanup that
happened before the failure, and the half-installed trust anchor file is left
on the system at exit. -/
def envRefreshExitFail : Env :=
  { sudoUser := none, homeDirs := [], uidIsRoot := true, genCertsOk := true
    sysCertWriteOk := true, refreshSpawnOk := true, refreshExitOk := false
    tempWriteOk := true, certutilImportSpawnOk := true, certutilImportExitOk := true
    certutilDeleteSpawnOk := true, sysCertRemoveOk := true
    refreshFreshSpawnOk := true, refreshFreshExitOk := true
    hostsOpenReadOk := true, hostsOpenAppendOk := true, hostsWriteOk := true }

/-- C3, counterexample: on this fatal startup error no teardown is attempted
(the one `callRemoveTrust` in the trace is the defensive cleanup that ran
before the failing step) and the written trust-anchor file remains installed
when the process exits. -/
theorem C3_startup_teardown_cex :
    (main_run envRefreshExitFail state0 []).res
        = Except.error "Failed to run update-ca-certificates"
    ∧ (main_run envRefreshExitFail state0 []).state.sysCertExists = true
    ∧ Step.startServing ∉ (main_run envRefreshExitFail state0 []).trace
    ∧ (main_run envRefreshExitFail state0 []).trace.count Step.callRemoveTrust = 1 := by
  decide

/-- C3, amended: a fatal startup error makes `main` return immediately via
`?` with no teardown of the state changes that had already succeeded; in
particular, when trust installation fails at the refresh step, the written
trust-anchor file is still installed when the process exits, and serving is
never reached. -/
theorem C3_startup_no_teardown (env : Env) (s : SysState) (domains : List (List Char))
    (h0 : env.uidIsRoot = true) (h1 : env.genCertsOk = true)
    (h2 : env.sysCertWriteOk = true) (h3 : env.refreshSpawnOk = true)
    (h4 : env.refreshExitOk = false) :
    (main_run env s domains).res = Except.error "Failed to run update-ca-certificates"
    ∧ (main_run env s domains).state.sysCertExists = true
    ∧ Step.startServing ∉ (main_run env s domains).trace := by
  have hinst : install_trust env (cleanup_system env s).state
      = { res := Except.error "Failed to run update-ca-certificates"
          state := { (cleanup_system env s).state with sysCertExists := true }
          trace := [Step.callInstallTrust, Step.writeSysCert, Step.runRefresh] } := by
    unfold install_trust
    rw [h2, h3, h4]
    simp
  unfold main_run
  rw [h0, h1]
  simp only [hinst, if_true]
  refine ⟨by trivial, by trivial, ?_⟩
  intro hmem
  simp only [List.mem_append] at hmem
  rcases hmem with (hmem | hmem) | hmem
  · have := cleanup_system_trace_sub env s Step.startServing hmem
    exact absurd this (by decide)
  · exact absurd hmem (by decide)
  · exact absurd hmem (by decide)

/-- Witness for the amended C3, at the concrete failing environment. -/
theorem C3_startup_no_teardown_witness :
    (envRefreshExitFail.uidIsRoot = true ∧ envRefreshExitFail.genCertsOk = true
      ∧ envRefreshExitFail.sysCertWriteOk = true
      ∧ envRefreshExitFail.refreshSpawnOk = true
      ∧ envRefreshExitFail.refreshExitOk = false)
    ∧ ((main_run envRefreshExitFail state0 []).res
          = Except.error "Failed to run update-ca-certificates"
      ∧ (main_run envRefreshExitFail state0 []).state.sysCertExists = true
      ∧ Step.startServing ∉ (main_run envRefreshExitFail state0 []).trace) :=
  ⟨⟨by decide, by decide, by decide, by decide, by decide⟩,
    C3_startup_no_teardown envRefreshExitFail state0 []
      (by decide) (by decide) (by decide) (by decide) (by decide)⟩

theorem remove_trust_tail_ok (env : Env) (s : SysState) (t : List Step)
    (h : env.refreshFreshSpawnOk = true) :
    (remove_trust_tail env s t).res = Except.ok ()
    ∧ (remove_trust_tail env s t).state = s := by
  unfold remove_trust_tail
  rw [h]
  cases hg : (get_real_user_home env).isSome <;> simp [hg]

theorem remove_trust_ok (env : Env) (s : SysState)
    (h1 : env.refreshFreshSpawnOk = true)
    (h2 : s.sysCertExists = true → env.sysCertRemoveOk = true) :
    (remove_trust env s).res = Except.ok ()
    ∧ (remove_trust env s).state.sysCertExists = false := by
  unfold remove_trust
  cases hc : s.sysCertExists with
  | false =>
    simp only [Bool.false_eq_true, if_false]
    refine ⟨(remove_trust_tail_ok env s _ h1).1, ?_⟩
    rw [(remove_trust_tail_ok env s _ h1).2]
    exact hc
  | true =>
    rw [h2 hc]
    simp only [if_true]
    refine ⟨(remove_trust_tail_ok env _ _ h1).1, ?_⟩
    rw [(remove_trust_tail_ok env _ _ h1).2]

/-- C6: `remove_trust` succeeds whether or not `install_trust` ever ran — in
particular when the trust-anchor file does not exist nothing fails — and a
second call in a row succeeds as well; the only assumptions are that the
refresh utility can be launched and that deleting the file succeeds when it
is present. -/
theorem C6_remove_trust_idempotent (env : Env) (s : SysState)
    (h1 : env.refreshFreshSpawnOk = true)
    (h2 : s.sysCertExists = true → env.sysCertRemoveOk = true) :
    (remove_trust env s).res = Except.ok ()
    ∧ (remove_trust env s).state.sysCertExists = false
    ∧ (remove_trust env (remove_trust env s).state).res = Except.ok () := by
  obtain ⟨hres, hstate⟩ := remove_trust_ok env s h1 h2
  refine ⟨hres, hstate, ?_⟩
  have h2b : (remove_trust env s).state.sysCertExists = true
      → env.sysCertRemoveOk = true := by
    intro hh
    rw [hstate] at hh
    cases hh
  exact (remove_trust_ok env (remove_trust env s).state h1 h2b).1

/-- A fully healthy environment with no real user identified. -/
def envAllOk : Env :=
  { sudoUser := none, homeDirs := [], uidIsRoot := true, genCertsOk := true
    sysCertWriteOk := true, refreshSpawnOk := true, refreshExitOk := true
    tempWriteOk := true, certutilImportSpawnOk := true, certutilImportExitOk := true
    certutilDeleteSpawnOk := true, sysCertRemoveOk := true
    refreshFreshSpawnOk := true, refreshFreshExitOk := true
    hostsOpenReadOk := true, hostsOpenAppendOk := true, hostsWriteOk := true }

/-- Witness for C6: removing trust twice on a system where the trust-anchor
file was never installed. -/
theorem C6_remove_trust_idempotent_witness :
    (envAllOk.refreshFreshSpawnOk = true
      ∧ (state0.sysCertExists = true → envAllOk.sysCertRemoveOk = true))
    ∧ ((remove_trust envAllOk state0).res = Except.ok ()
      ∧ (remove_trust envAllOk state0).state.sysCertExists = false
      ∧ (remove_trust envAllOk (remove_trust envAllOk state0).state).res
          = Except.ok ()) :=
  ⟨⟨by decide, by decide⟩,
    C6_remove_trust_idempotent envAllOk state0 (by decide) (by decide)⟩

/-- Environment in which `update-ca-certificates --fresh` launches but exits
with a non-zero status. -/
def envFreshExitFail : Env :=
  { sudoUser := none, homeDirs := [], uidIsRoot := true, genCertsOk := true
    sysCertWriteOk := true, refreshSpawnOk := true, refreshExitOk := true
    tempWriteOk := true, certutilImportSpawnOk := true, certutilImportExitOk := true
    certutilDeleteSpawnOk := true, sysCertRemoveOk := true
    refreshFreshSpawnOk := true, refreshFreshExitOk := false
    hostsOpenReadOk := true, hostsOpenAppendOk := true, hostsWriteOk := true }

/-- C7, counterexample: the bundle-rebuild invocation fails (non-zero exit of
`update-ca-certificates --fresh`), yet `remove_trust` returns success — the
source calls `.output()?`, which only fails when the utility cannot be
spawned, and never reads the exit status. -/
theorem C7_refresh_claim_cex :
    envFreshExitFail.refreshFreshSpawnOk = true
    ∧ envFreshExitFail.refreshFreshExitOk = false
    ∧ (remove_trust envFreshExitFail state0).res = Except.ok () := by
  decide

/-- C7, amended: `remove_trust` propagates failure to launch the refresh
utility as an error, but ignores the utility's exit status: given that the
trust-anchor file deletion does not fail, `remove_trust` succeeds exactly
when the refresh utility can be spawned, regardless of its exit status. -/
theorem C7_refresh_spawn_only (env : Env) (s : SysState)
    (h : s.sysCertExists = true → env.sysCertRemoveOk = true) :
    (remove_trust env s).res = Except.ok () ↔ env.refreshFreshSpawnOk = true := by
  unfold remove_trust remove_trust_tail
  cases hc : s.sysCertExists <;>
    cases hf : env.refreshFreshSpawnOk <;>
      cases hg : (get_real_user_home env).isSome <;>
        simp [hc, hf, hg, h]

/-- Environment in which the refresh utility cannot even be launched. -/
def envFreshSpawnFail : Env :=
  { sudoUser := none, homeDirs := [], uidIsRoot := true, genCertsOk := true
    sysCertWriteOk := true, refreshSpawnOk := true, refreshExitOk := true
    tempWriteOk := true, certutilImportSpawnOk := true, certutilImportExitOk := true
    certutilDeleteSpawnOk := true, sysCertRemoveOk := true
    refreshFreshSpawnOk := false, refreshFreshExitOk := true
    hostsOpenReadOk := true, hostsOpenAppendOk := true, hostsWriteOk := true }

/-- Witness for the amended C7: when the refresh utility cannot be spawned,
`remove_trust` does not return success. -/
theorem C7_refresh_spawn_only_witness :
    (state0.sysCertExists = true → envFreshSpawnFail.sysCertRemoveOk = true)
    ∧ ((remove_trust envFreshSpawnFail state0).res = Except.ok ()
        ↔ envFreshSpawnFail.refreshFreshSpawnOk = true) :=
  ⟨by decide, C7_refresh_spawn_only envFreshSpawnFail state0 (by decide)⟩

/-- Environment in which the system-store steps succeed, a real user is
identified, but the temporary certificate file cannot be written. -/
def envTempWriteFail : Env :=
  { sudoUser := some "alice", homeDirs := ["alice"], uidIsRoot := true
    genCertsOk := true, sysCertWriteOk := true, refreshSpawnOk := true
    refreshExitOk := true, tempWriteOk := false, certutilImportSpawnOk := true
    certutilImportExitOk := true, certutilDeleteSpawnOk := true
    sysCertRemoveOk := true, refreshFreshSpawnOk := true, refreshFreshExitOk := true
    hostsOpenReadOk := true, hostsOpenAppendOk := true, hostsWriteOk := true }

/-- C9, counterexample: the system-store steps succeed, but the best-effort
browser-trust step fails at writing the temporary certificate file, and
`install_trust` returns an error — the source uses `fs::write(...)?`, so this
particular best-effort failure is fatal, contrary to the claim. -/
theorem C9_install_claim_cex :
    envTempWriteFail.sysCertWriteOk = true
    ∧ envTempWriteFail.refreshSpawnOk = true
    ∧ envTempWriteFail.refreshExitOk = true
    ∧ (install_trust envTempWriteFail state0).res = Except.error "write temp cert" := by
  decide

/-- C9, amended: if the system-store steps succeed and the temporary
certificate file can be written, `install_trust` returns success regardless
of the certutil import outcome (the environment's certutil flags are
unconstrained), and the temporary file is removed afterward whenever a real
user was identified; failure to write the temporary file itself, however, is
propagated as an error (see the counterexample). -/
theorem C9_install_best_effort (env : Env) (s : SysState)
    (h1 : env.sysCertWriteOk = true) (h2 : env.refreshSpawnOk = true)
    (h3 : env.refreshExitOk = true) (h4 : env.tempWriteOk = true) :
    (install_trust env s).res = Except.ok ()
    ∧ ((get_real_user_home env).isSome = true →
        (install_trust env s).state.tempCertExists = false
        ∧ Step.removeTempFile ∈ (install_trust env s).trace) := by
  unfold install_trust
  rw [h1, h2, h3, h4]
  cases hg : (get_real_user_home env).isSome <;> simp [hg]

/-- Environment where the certutil import itself fails in every way while the
system-store steps succeed. -/
def envImportFails : Env :=
  { sudoUser := some "alice", homeDirs := ["alice"], uidIsRoot := true
    genCertsOk := true, sysCertWriteOk := true, refreshSpawnOk := true
    refreshExitOk := true, tempWriteOk := true, certutilImportSpawnOk := false
    certutilImportExitOk := false, certutilDeleteSpawnOk := false
    sysCertRemoveOk := true, refreshFreshSpawnOk := true, refreshFreshExitOk := true
    hostsOpenReadOk := true, hostsOpenAppendOk := true, hostsWriteOk := true }

/-- Witness for the amended C9: with a failing certutil import,
`install_trust` still succeeds and removes the temporary file. -/
theorem C9_install_best_effort_witness :
    (envImportFails.sysCertWriteOk = true ∧ envImportFails.refreshSpawnOk = true
      ∧ envImportFails.refreshExitOk = true ∧ envImportFails.tempWriteOk = true)
    ∧ ((install_trust envImportFails state0).res = Except.ok ()
      ∧ ((get_real_user_home envImportFails).isSome = true →
          (install_trust envImportFails state0).state.tempCertExists = false
          ∧ Step.removeTempFile ∈ (install_trust envImportFails state0).trace)) :=
  ⟨⟨by decide, by decide, by decide, by decide⟩,
    C9_install_best_effort envImportFails state0
      (by decide) (by decide) (by decide) (by decide)⟩

theorem get_real_user_home_isSome (env : Env) :
    (get_real_user_home env).isSome = true
    ↔ ∃ u, env.sudoUser = some u ∧ env.homeDirs.contains u = true := by
  unfold get_real_user_home
  cases hu : env.sudoUser with
  | none => simp
  | some u => cases hc : env.homeDirs.contains u <;> simp [hc]

/-- C10: the per-user browser trust-database operations (certutil import in
`install_trust`, certutil delete in `remove_trust`) are attempted exactly
when `SUDO_USER` is set and `/home/<SUDO_USER>` exists; when not, both are
silently skipped and both functions still return success (assuming the
system-store steps themselves succeed). -/
theorem C10_real_user_gating (env : Env) (s : SysState)
    (h1 : env.sysCertWriteOk = true) (h2 : env.refreshSpawnOk = true)
    (h3 : env.refreshExitOk = true) (h4 : env.tempWriteOk = true)
    (h5 : s.sysCertExists = true → env.sysCertRemoveOk = true)
    (h6 : env.refreshFreshSpawnOk = true) :
    (Step.runCertutilImport ∈ (install_trust env s).trace
      ↔ ∃ u, env.sudoUser = some u ∧ env.homeDirs.contains u = true)
    ∧ (Step.runCertutilDelete ∈ (remove_trust env s).trace
      ↔ ∃ u, env.sudoUser = some u ∧ env.homeDirs.contains u = true)
    ∧ ((get_real_user_home env).isSome = false →
        (install_trust env s).res = Except.ok ()
        ∧ (remove_trust env s).res = Except.ok ()) := by
  rw [← get_real_user_home_isSome env]
  unfold install_trust remove_trust remove_trust_tail
  rw [h1, h2, h3, h4, h6]
  cases hg : (get_real_user_home env).isSome <;>
    cases hc : s.sysCertExists <;>
      simp [hg, hc, h5]

/-- Environment with `SUDO_USER` set to a user whose home directory is not
under `/home` (the lookup list does not contain the user). -/
def envHomeElsewhere : Env :=
  { sudoUser := some "alice", homeDirs := ["bob"], uidIsRoot := true
    genCertsOk := true, sysCertWriteOk := true, refreshSpawnOk := true
    refreshExitOk := true, tempWriteOk := true, certutilImportSpawnOk := true
    certutilImportExitOk := true, certutilDeleteSpawnOk := true
    sysCertRemoveOk := true, refreshFreshSpawnOk := true, refreshFreshExitOk := true
    hostsOpenReadOk := true, hostsOpenAppendOk := true, hostsWriteOk := true }

/-- Witness for C10: with `SUDO_USER=alice` but no `/home/alice`, both
per-user operations are skipped and both calls succeed. -/
theorem C10_real_user_gating_witness :
    (envHomeElsewhere.sysCertWriteOk = true ∧ envHomeElsewhere.refreshSpawnOk = true
      ∧ envHomeElsewhere.refreshExitOk = true ∧ envHomeElsewhere.tempWriteOk = true
      ∧ (state0.sysCertExists = true → envHomeElsewhere.sysCertRemoveOk = true)
      ∧ envHomeElsewhere.refreshFreshSpawnOk = true)
    ∧ ((Step.runCertutilImport ∈ (install_trust envHomeElsewhere state0).trace
        ↔ ∃ u, envHomeElsewhere.sudoUser = some u
            ∧ envHomeElsewhere.homeDirs.contains u = true)
      ∧ (Step.runCertutilDelete ∈ (remove_trust envHomeElsewhere state0).trace
        ↔ ∃ u, envHomeElsewhere.sudoUser = some u
            ∧ envHomeElsewhere.homeDirs.contains u = true)
      ∧ ((get_real_user_home envHomeElsewhere).isSome = false →
          (install_trust envHomeElsewhere state0).res = Except.ok ()
          ∧ (remove_trust envHomeElsewhere state0).res = Except.ok ())) :=
  ⟨⟨by decide, by decide, by decide, by decide, by decide, by decide⟩,
    C10_real_user_gating envHomeElsewhere state0
      (by decide) (by decide) (by decide) (by decide) (by decide) (by decide)⟩

end Mimikry
